import Mathlib

/-!
Verification of the Player Value Index & Analytics Engine and of the
compare-list / trade-simulator state handlers of the player-asset-market
dashboard.

The repository ships the browser frontend; the nightly analytics engine
(stat normalizer, sentiment aggregator, value-index calculator, momentum
classifier, confidence estimator, price forecaster, fantasy projection,
betting recommendation) runs in a backend that is not part of the checked-in
sources.  Those components are modelled here from the specification.  The
compare-list handlers (handleToggleCompare, handleReplacePlayer,
handleClearCompare in App.jsx) and the trade-simulator portfolio handlers
(addToPortfolio, updateShares, removeFromPortfolio, analyzePortfolio in
TradeSimulator.jsx) are embedded directly from the source.

All real-valued quantities are embedded as rationals; in this embedding
every produced number is finite by construction, so the finiteness clauses
of the specification become boundedness statements.
-/

namespace PlayerMarket

/-! ## Value index engine (modelled from the spec) -/

/-- Neutral midpoint of the documented 0..100 component range
(spec: a missing input component degrades to a neutral midpoint). -/
def NEUTRAL_MIDPOINT : ℚ := 50

/-- Clamp a rational into the interval from lo to hi. -/
def clampQ (lo hi x : ℚ) : ℚ := max lo (min hi x)

/-- One game's counting stats for a player (data model: StatLine). -/
structure StatLine where
  points : ℚ
  rebounds : ℚ
  assists : ℚ
  steals : ℚ
  blocks : ℚ
  turnovers : ℚ
deriving DecidableEq, Repr

/-- Modelled from the spec: the raw performance reading of the Stat
Normalizer (the backend stat-normalizer source is not under src/).  A
fixed positive weighting of the counting stats, with turnovers entering
negatively, as required by the monotonicity policy of spec 4.1. -/
def rawStatScore (s : StatLine) : ℚ :=
  s.points + (6/5) * s.rebounds + (3/2) * s.assists
    + 3 * (s.steals + s.blocks) - s.turnovers

/-- Modelled from the spec: the Stat Normalizer output, a bounded 0..100
contribution (spec 4.1). -/
def statComponent (s : StatLine) : ℚ := clampQ 0 100 (rawStatScore s)

/-- Modelled from the spec: stat component with the documented fallback:
a missing stat line yields the neutral midpoint rather than failing. -/
def statComponentOpt : Option StatLine → ℚ
  | none => NEUTRAL_MIDPOINT
  | some s => statComponent s

/-- Arithmetic mean of a list of rationals (0 on the empty list, which the
callers below never reach). -/
def meanQ (w : List ℚ) : ℚ := w.sum / w.length

/-- Modelled from the spec: the Sentiment Aggregator (spec 4.2), reducing
the window's sentiment scores (each in -1..1) to a bounded 0..100
contribution; zero records yield the neutral midpoint. -/
def sentimentComponent (rs : List ℚ) : ℚ :=
  if rs.isEmpty then NEUTRAL_MIDPOINT
  else clampQ 0 100 (50 * (1 + meanQ rs))

/-- Stat-dominant weight of the value-index combination (spec 4.3). -/
def STAT_WEIGHT : ℚ := 7/10

/-- Secondary sentiment weight of the value-index combination (spec 4.3). -/
def SENTIMENT_WEIGHT : ℚ := 3/10

/-- Modelled from the spec: the Value Index Calculator (spec 4.3), a fixed
weighted combination of the two components clamped to the documented
bound. -/
def valueScore (stat sent : ℚ) : ℚ :=
  clampQ 0 100 (STAT_WEIGHT * stat + SENTIMENT_WEIGHT * sent)

/-! ## Fantasy projection engine (modelled from the spec) -/

/-- Modelled from the spec: the fixed fantasy scoring formula of spec 4.9
(the backend fantasy engine source is not under src/):
points times 1, rebounds times 1.2, assists times 1.5, steals and blocks
times 3, turnovers times -1. -/
def fantasyPointsBase (s : StatLine) : ℚ :=
  s.points * 1 + s.rebounds * (6/5) + s.assists * (3/2)
    + (s.steals + s.blocks) * 3 + s.turnovers * (-1)

/-- Proportional momentum shift applied to the base projection (spec 4.9:
trend-adjusted, shifted proportionally to recent momentum). -/
def MOMENTUM_SHIFT : ℚ := 1/10

/-- Modelled from the spec: the momentum-adjusted fantasy projection. -/
def projectedFantasyPoints (s : StatLine) (momentum : ℚ) : ℚ :=
  fantasyPointsBase s * (1 + MOMENTUM_SHIFT * momentum)

/-! ## Betting recommendation engine (modelled from the spec) -/

/-- The three possible betting recommendations (spec 4.10). -/
inductive BetRec where
  | OVER
  | UNDER
  | PASS
deriving DecidableEq, Repr

/-- Minimum edge over the posted line required for a directional pick
(spec example: edge threshold 1.5). -/
def MIN_EDGE : ℚ := 3/2

/-- Modelled from the spec: the Betting Recommendation Engine decision
(spec 4.10; the backend betting engine source is not under src/): OVER
when the player's average exceeds the line by more than the minimum
edge, UNDER symmetrically, PASS otherwise. -/
def recommendation (playerAvg line : ℚ) : BetRec :=
  if MIN_EDGE < playerAvg - line then BetRec.OVER
  else if MIN_EDGE < line - playerAvg then BetRec.UNDER
  else BetRec.PASS

/-! ## Momentum classifier (modelled from the spec) -/

/-- The five fixed trend classes (spec 4.4). -/
inductive TrendClass where
  | rising_fast
  | rising
  | stable
  | falling
  | falling_fast
deriving DecidableEq, Repr

/-- Fixed threshold for the fast trend classes (spec 4.4: thresholds are
fixed constants, not learned). -/
def FAST_THRESHOLD : ℚ := 1/4

/-- Fixed threshold for the slow trend classes. -/
def SLOW_THRESHOLD : ℚ := 1/10

/-- Modelled from the spec: the momentum score of a trailing window of
value-score points, the normalized change across the window (spec 4.4);
fewer than 2 points give the neutral score 0. -/
def momentumScore (w : List ℚ) : ℚ :=
  if w.length < 2 then 0
  else (w.getLast?.getD 0 - w.head?.getD 0) / w.head?.getD 0

/-- Modelled from the spec: the fixed-threshold classification of a
momentum score into a trend class. -/
def classifyMomentum (m : ℚ) : TrendClass :=
  if FAST_THRESHOLD ≤ m then TrendClass.rising_fast
  else if SLOW_THRESHOLD ≤ m then TrendClass.rising
  else if m ≤ -FAST_THRESHOLD then TrendClass.falling_fast
  else if m ≤ -SLOW_THRESHOLD then TrendClass.falling
  else TrendClass.stable

/-- Modelled from the spec: the trend class of a trailing window. -/
def trendClass (w : List ℚ) : TrendClass :=
  classifyMomentum (momentumScore w)

/-! ## Confidence estimator (modelled from the spec) -/

/-- The confidence levels (spec 4.5). -/
inductive ConfLevel where
  | Low
  | Medium
  | High
deriving DecidableEq, Repr

/-- Hard floor on the trailing sample size below which confidence is
forced to Low (spec 4.5). -/
def MIN_SAMPLE : ℕ := 3

/-- Population variance of a list of rationals. -/
def varianceQ (w : List ℚ) : ℚ :=
  (w.map (fun x => (x - meanQ w) ^ 2)).sum / w.length

/-- Variance cutoff below which a long stable series earns High
confidence. -/
def VAR_HIGH_CUTOFF : ℚ := 25

/-- Modelled from the spec: the Confidence Estimator (spec 4.5; the
backend estimator source is not under src/).  Fewer than MIN_SAMPLE
points force Low regardless of variance; otherwise more points and lower
variance give higher confidence. -/
def confidenceLevel (w : List ℚ) : ConfLevel :=
  if w.length < MIN_SAMPLE then ConfLevel.Low
  else if varianceQ w ≤ VAR_HIGH_CUTOFF ∧ 5 ≤ w.length then ConfLevel.High
  else ConfLevel.Medium

/-! ## Price forecaster (modelled from the spec) -/

/-- A player's value-history series, oldest point first. -/
structure PlayerSeries where
  pid : ℕ
  history : List ℚ
deriving DecidableEq, Repr

/-- Documented minimum trailing history for a forecast (spec 4.6: players
with insufficient history, minimum 5 days, are excluded). -/
def MIN_FORECAST_HISTORY : ℕ := 5

/-- Weekly-change threshold above which a player is trending. -/
def TREND_UP_PCT : ℚ := 5

/-- Weekly-change threshold below which a player is a value drop. -/
def DROP_DOWN_PCT : ℚ := -5

/-- Modelled from the spec: percentage change between the current value
and the value at the start of the trailing window. -/
def weeklyChangePct (p : PlayerSeries) : ℚ :=
  100 * (p.history.getLast?.getD 0 - p.history.head?.getD 0)
    / p.history.head?.getD 0

/-- Modelled from the spec: the 7-day projection, a bounded linear
extrapolation of the recent trend (spec 4.6). -/
def predicted7day (p : PlayerSeries) : ℚ :=
  clampQ 0 100 (p.history.getLast?.getD 0 * (1 + weeklyChangePct p / 100))

/-- Modelled from the spec: the trending set of the Price Forecaster
(spec 4.6); players with insufficient history are excluded rather than
defaulted. -/
def trendingPlayers (ps : List PlayerSeries) : List PlayerSeries :=
  ps.filter (fun p =>
    decide (MIN_FORECAST_HISTORY ≤ p.history.length ∧
      TREND_UP_PCT < weeklyChangePct p))

/-- Modelled from the spec: the value-drop set of the Price Forecaster. -/
def valueDrops (ps : List PlayerSeries) : List PlayerSeries :=
  ps.filter (fun p =>
    decide (MIN_FORECAST_HISTORY ≤ p.history.length ∧
      weeklyChangePct p < DROP_DOWN_PCT))

/-- Modelled from the spec: the forecast payload, pairing each eligible
player with its predicted 7-day value. -/
def priceForecast (ps : List PlayerSeries) :
    List (ℕ × ℚ) × List (ℕ × ℚ) :=
  ((trendingPlayers ps).map (fun p => (p.pid, predicted7day p)),
   (valueDrops ps).map (fun p => (p.pid, predicted7day p)))

/-! ## Trade-simulator portfolio handlers (from TradeSimulator.jsx) -/

/-- A JavaScript number as it reaches the share-count logic: an integer,
or NaN.  The only caller of updateShares in TradeSimulator.jsx passes
parseInt of the share input field, which is NaN when the field is
cleared or non-numeric, so the NaN case is reachable. -/
inductive JsNum where
  | int (n : ℤ)
  | nan
deriving DecidableEq, Repr

/-- JS Math.max(1, x): the integer maximum on numbers, NaN when the
argument is NaN (JS Math.max propagates NaN). -/
def jsMax1 : JsNum → JsNum
  | JsNum.int n => JsNum.int (max 1 n)
  | JsNum.nan => JsNum.nan

/-- The share count is an actual number at least 1 (the JS comparison
shares >= 1, which is false on NaN). -/
def atLeastOneShare (s : JsNum) : Prop :=
  ∃ n : ℤ, s = JsNum.int n ∧ 1 ≤ n

/-- One portfolio holding: a player id with a share count
(TradeSimulator.jsx keeps the whole player object; only the id and the
shares take part in the handlers' logic). -/
structure Holding where
  id : ℕ
  shares : JsNum
deriving DecidableEq, Repr

/-- addToPortfolio from TradeSimulator.jsx: append the player with one
share unless a holding with the same id already exists. -/
def addToPortfolio (pf : List Holding) (playerId : ℕ) : List Holding :=
  if ∃ p ∈ pf, p.id = playerId then pf
  else pf ++ [⟨playerId, JsNum.int 1⟩]

/-- removeFromPortfolio from TradeSimulator.jsx. -/
def removeFromPortfolio (pf : List Holding) (playerId : ℕ) : List Holding :=
  pf.filter (fun p => decide (p.id ≠ playerId))

/-- updateShares from TradeSimulator.jsx: set the matching holding's
shares to Math.max(1, shares), leaving every other holding unchanged. -/
def updateShares (pf : List Holding) (playerId : ℕ) (shares : JsNum) :
    List Holding :=
  pf.map (fun p => if p.id = playerId then ⟨p.id, jsMax1 shares⟩ else p)

/-- One trade-simulator portfolio operation. -/
inductive PortfolioOp where
  | add (playerId : ℕ)
  | update (playerId : ℕ) (shares : JsNum)
  | remove (playerId : ℕ)
deriving DecidableEq, Repr

/-- Apply one portfolio operation. -/
def applyPortfolioOp (pf : List Holding) : PortfolioOp → List Holding
  | PortfolioOp.add p => addToPortfolio pf p
  | PortfolioOp.update p s => updateShares pf p s
  | PortfolioOp.remove p => removeFromPortfolio pf p

/-- Run a sequence of portfolio operations from the empty portfolio. -/
def runPortfolio (ops : List PortfolioOp) : List Holding :=
  ops.foldl applyPortfolioOp []

/-- analyzePortfolio from TradeSimulator.jsx, reduced to its request
decision: on an empty portfolio it returns early and issues no analysis
request (the analysis stays absent); otherwise it requests analysis of
the held player ids. -/
def analyzePortfolio (pf : List Holding) : Option (List ℕ) :=
  if pf.isEmpty then none else some (pf.map Holding.id)

/-! ## Compare-list handlers (from App.jsx) -/

/-- COMPARE_LIMIT from App.jsx. -/
def COMPARE_LIMIT : ℕ := 3

/-- handleToggleCompare from App.jsx: remove the id when present,
append it when absent and under the limit, otherwise leave the list. -/
def handleToggleCompare (ids : List ℕ) (playerId : ℕ) : List ℕ :=
  if playerId ∈ ids then ids.filter (fun id => decide (id ≠ playerId))
  else if ids.length < COMPARE_LIMIT then ids ++ [playerId]
  else ids

/-- handleReplacePlayer from App.jsx: when the incoming id is already in
the list, just remove the outgoing id; otherwise swap by mapping over the
array, preserving order. -/
def handleReplacePlayer (ids : List ℕ) (oldId newId : ℕ) : List ℕ :=
  if newId ∈ ids then ids.filter (fun id => decide (id ≠ oldId))
  else ids.map (fun id => if id = oldId then newId else id)

/-- handleClearCompare from App.jsx. -/
def handleClearCompare : List ℕ := []

/-- One compare-list operation. -/
inductive CompareOp where
  | toggle (playerId : ℕ)
  | replace (oldId newId : ℕ)
  | clear
deriving DecidableEq, Repr

/-- Apply one compare-list operation. -/
def applyCompareOp (ids : List ℕ) : CompareOp → List ℕ
  | CompareOp.toggle p => handleToggleCompare ids p
  | CompareOp.replace o n => handleReplacePlayer ids o n
  | CompareOp.clear => handleClearCompare

/-- Run a sequence of compare-list operations from the empty list. -/
def runCompare (ops : List CompareOp) : List ℕ :=
  ops.foldl applyCompareOp []

/-! ## Helper lemmas -/

lemma le_clampQ (lo hi x : ℚ) : lo ≤ clampQ lo hi x := le_max_left _ _

lemma clampQ_le (lo hi x : ℚ) (h : lo ≤ hi) : clampQ lo hi x ≤ hi :=
  max_le h (min_le_left _ _)

lemma clampQ_mono (lo hi : ℚ) {x y : ℚ} (h : x ≤ y) :
    clampQ lo hi x ≤ clampQ lo hi y :=
  max_le_max le_rfl (min_le_min le_rfl h)

/-! ## Claim theorems -/

/-- Claim C1: for every valid stat/sentiment input the computed
value_score, stat_component and sentiment_component are finite numbers
within their documented 0..100 bounds (finite by construction in this
rational embedding), and a missing input component is substituted by the
neutral midpoint instead of failing. -/
theorem value_index_bounds_and_neutral
    (statIn : Option StatLine) (rs : List ℚ) :
    (0 ≤ statComponentOpt statIn ∧ statComponentOpt statIn ≤ 100) ∧
    (0 ≤ sentimentComponent rs ∧ sentimentComponent rs ≤ 100) ∧
    (0 ≤ valueScore (statComponentOpt statIn) (sentimentComponent rs) ∧
      valueScore (statComponentOpt statIn) (sentimentComponent rs) ≤ 100) ∧
    statComponentOpt none = NEUTRAL_MIDPOINT ∧
    sentimentComponent [] = NEUTRAL_MIDPOINT := by
  have hmid : (0:ℚ) ≤ NEUTRAL_MIDPOINT ∧ NEUTRAL_MIDPOINT ≤ 100 := by
    norm_num [NEUTRAL_MIDPOINT]
  refine ⟨?_, ?_, ?_, rfl, rfl⟩
  · cases statIn with
    | none => exact hmid
    | some s =>
      exact ⟨le_clampQ _ _ _, clampQ_le _ _ _ (by norm_num)⟩
  · unfold sentimentComponent
    split
    · exact hmid
    · exact ⟨le_clampQ _ _ _, clampQ_le _ _ _ (by norm_num)⟩
  · exact ⟨le_clampQ _ _ _, clampQ_le _ _ _ (by norm_num)⟩

/-- Claim C2: the fantasy projection before momentum adjustment equals
points·1 + rebounds·1.2 + assists·1.5 + (steals+blocks)·3 +
turnovers·(−1); on points=30, rebounds=10, assists=5, steals=2, blocks=1,
turnovers=3 it equals 55.5. -/
theorem fantasy_scoring_formula :
    (∀ s : StatLine, fantasyPointsBase s =
      s.points * 1 + s.rebounds * (6/5) + s.assists * (3/2)
        + (s.steals + s.blocks) * 3 + s.turnovers * (-1)) ∧
    fantasyPointsBase ⟨30, 10, 5, 2, 1, 3⟩ = 111/2 := by
  constructor
  · intro s; rfl
  · norm_num [fantasyPointsBase]

/-- Claim C3: the betting recommendation is exactly one of OVER, UNDER,
PASS, picked by the minimum-edge rule; with player_avg=28.5 and
line=26.5 the pick is OVER, and with line=28.0 it is PASS. -/
theorem betting_recommendation_spec :
    (∀ avg line : ℚ,
      (recommendation avg line = BetRec.OVER ∨
        recommendation avg line = BetRec.UNDER ∨
        recommendation avg line = BetRec.PASS) ∧
      (recommendation avg line = BetRec.OVER ↔ MIN_EDGE < avg - line) ∧
      (recommendation avg line = BetRec.UNDER ↔ MIN_EDGE < line - avg) ∧
      (recommendation avg line = BetRec.PASS ↔ |avg - line| ≤ MIN_EDGE)) ∧
    recommendation (57/2) (53/2) = BetRec.OVER ∧
    recommendation (57/2) 28 = BetRec.PASS := by
  refine ⟨?_, by norm_num [recommendation, MIN_EDGE], by norm_num [recommendation, MIN_EDGE]⟩
  intro avg line
  have hedge : (0:ℚ) < MIN_EDGE := by norm_num [MIN_EDGE]
  unfold recommendation
  split_ifs with h1 h2
  · refine ⟨Or.inl rfl, by simp [h1], ?_, ?_⟩
    · simp only [iff_false, reduceCtorEq, false_iff]
      intro hc; linarith
    · simp only [reduceCtorEq, false_iff, not_le]
      calc MIN_EDGE < avg - line := h1
        _ ≤ |avg - line| := le_abs_self _
  · refine ⟨Or.inr (Or.inl rfl), by simp [h1], by simp [h2], ?_⟩
    simp only [reduceCtorEq, false_iff, not_le]
    calc MIN_EDGE < line - avg := h2
      _ = -(avg - line) := by ring
      _ ≤ |avg - line| := neg_le_abs _
  · refine ⟨Or.inr (Or.inr rfl), by simp [h1], by simp [h2], ?_⟩
    simp only [true_iff]
    rw [abs_le]
    constructor <;> linarith [not_lt.mp h1, not_lt.mp h2]

/-- Claim C4: the momentum classifier always outputs one of the five
fixed trend classes, and a window with fewer than 2 points is classified
stable with neutral momentum. -/
theorem momentum_trend_class_spec :
    (∀ w : List ℚ,
      trendClass w = TrendClass.rising_fast ∨
      trendClass w = TrendClass.rising ∨
      trendClass w = TrendClass.stable ∨
      trendClass w = TrendClass.falling ∨
      trendClass w = TrendClass.falling_fast) ∧
    (∀ w : List ℚ, w.length < 2 →
      trendClass w = TrendClass.stable ∧ momentumScore w = 0) := by
  constructor
  · intro w
    cases h : trendClass w <;> simp
  · intro w h
    have hm : momentumScore w = 0 := by
      unfold momentumScore
      exact if_pos h
    constructor
    · unfold trendClass
      rw [hm]
      norm_num [classifyMomentum, FAST_THRESHOLD, SLOW_THRESHOLD]
    · exact hm

/-- Witness for C4 at the one-point window. -/
theorem momentum_trend_class_spec_witness :
    ([(42:ℚ)].length < 2) ∧ trendClass [(42:ℚ)] = TrendClass.stable :=
  ⟨by decide, (momentum_trend_class_spec.2 [(42:ℚ)] (by decide)).1⟩

/-- Claim C5: when the trailing sample size is below the documented
floor, the confidence estimator outputs Low and in particular never
High, regardless of the variance of the series. -/
theorem confidence_sample_floor (w : List ℚ) (h : w.length < MIN_SAMPLE) :
    confidenceLevel w = ConfLevel.Low ∧
    confidenceLevel w ≠ ConfLevel.High := by
  have hlow : confidenceLevel w = ConfLevel.Low := by
    unfold confidenceLevel
    exact if_pos h
  refine ⟨hlow, ?_⟩
  rw [hlow]
  decide

/-- Witness for C5 at a two-point series. -/
theorem confidence_sample_floor_witness :
    ([(40:ℚ), 45].length < MIN_SAMPLE) ∧
    confidenceLevel [(40:ℚ), 45] = ConfLevel.Low :=
  ⟨by decide, (confidence_sample_floor [(40:ℚ), 45] (by decide)).1⟩

/-- Claim C6: the stat component is monotone non-decreasing in each of
points, rebounds, assists, steals and blocks holding the other stats
fixed, and monotone non-increasing in turnovers. -/
theorem stat_component_monotone (a b : StatLine) :
    (a.points ≤ b.points → a.rebounds = b.rebounds → a.assists = b.assists →
      a.steals = b.steals → a.blocks = b.blocks → a.turnovers = b.turnovers →
      statComponent a ≤ statComponent b) ∧
    (a.rebounds ≤ b.rebounds → a.points = b.points → a.assists = b.assists →
      a.steals = b.steals → a.blocks = b.blocks → a.turnovers = b.turnovers →
      statComponent a ≤ statComponent b) ∧
    (a.assists ≤ b.assists → a.points = b.points → a.rebounds = b.rebounds →
      a.steals = b.steals → a.blocks = b.blocks → a.turnovers = b.turnovers →
      statComponent a ≤ statComponent b) ∧
    (a.steals ≤ b.steals → a.points = b.points → a.rebounds = b.rebounds →
      a.assists = b.assists → a.blocks = b.blocks → a.turnovers = b.turnovers →
      statComponent a ≤ statComponent b) ∧
    (a.blocks ≤ b.blocks → a.points = b.points → a.rebounds = b.rebounds →
      a.assists = b.assists → a.steals = b.steals → a.turnovers = b.turnovers →
      statComponent a ≤ statComponent b) ∧
    (a.turnovers ≤ b.turnovers → a.points = b.points →
      a.rebounds = b.rebounds → a.assists = b.assists →
      a.steals = b.steals → a.blocks = b.blocks →
      statComponent b ≤ statComponent a) := by
  refine ⟨?_, ?_, ?_, ?_, ?_, ?_⟩ <;>
    · intro hle h1 h2 h3 h4 h5
      apply clampQ_mono
      simp only [rawStatScore]
      rw [h1, h2, h3, h4, h5]
      linarith

/-- Witness for C6: more points never lower the component; more
turnovers never raise it. -/
theorem stat_component_monotone_witness :
    ((10:ℚ) ≤ 12 ∧
      statComponent ⟨10, 5, 5, 1, 1, 2⟩ ≤ statComponent ⟨12, 5, 5, 1, 1, 2⟩) ∧
    ((2:ℚ) ≤ 4 ∧
      statComponent ⟨10, 5, 5, 1, 1, 4⟩ ≤ statComponent ⟨10, 5, 5, 1, 1, 2⟩) :=
  ⟨⟨by norm_num,
    (stat_component_monotone ⟨10, 5, 5, 1, 1, 2⟩ ⟨12, 5, 5, 1, 1, 2⟩).1
      (by norm_num) rfl rfl rfl rfl rfl⟩,
   ⟨by norm_num,
    (stat_component_monotone ⟨10, 5, 5, 1, 1, 2⟩ ⟨10, 5, 5, 1, 1, 4⟩).2.2.2.2.2
      (by norm_num) rfl rfl rfl rfl rfl⟩⟩

/-- Claim C7: portfolio analysis invoked on an empty player list is a
no-op producing no analysis object (and, being a total function of the
portfolio, never raises); on a non-empty portfolio it requests analysis
of exactly the held ids. -/
theorem portfolio_analysis_empty_noop :
    analyzePortfolio [] = none ∧
    (∀ pf : List Holding, analyzePortfolio pf = none ↔ pf = []) := by
  constructor
  · rfl
  · intro pf
    cases pf <;> simp [analyzePortfolio]

/-- Claim C8: a player whose value-history series is shorter than the
documented minimum is excluded from both the trending set and the
value-drop set of the price forecaster. -/
theorem forecast_excludes_short_history
    (ps : List PlayerSeries) (p : PlayerSeries)
    (hshort : p.history.length < MIN_FORECAST_HISTORY) :
    p ∉ trendingPlayers ps ∧ p ∉ valueDrops ps := by
  constructor
  · intro hmem
    unfold trendingPlayers at hmem
    rw [List.mem_filter] at hmem
    have := of_decide_eq_true hmem.2
    omega
  · intro hmem
    unfold valueDrops at hmem
    rw [List.mem_filter] at hmem
    have := of_decide_eq_true hmem.2
    omega

/-- Witness for C8: a three-day series is excluded from both sets. -/
theorem forecast_excludes_short_history_witness :
    ((⟨1, [50, 51, 52]⟩ : PlayerSeries).history.length
        < MIN_FORECAST_HISTORY) ∧
    (⟨1, [50, 51, 52]⟩ : PlayerSeries)
      ∉ trendingPlayers [⟨1, [50, 51, 52]⟩] :=
  ⟨by decide,
   (forecast_excludes_short_history [⟨1, [50, 51, 52]⟩]
      ⟨1, [50, 51, 52]⟩ (by decide)).1⟩

/-! ## Lemmas for the compare-list state machine -/

lemma nodup_map_replaceId (ids : List ℕ) (o n : ℕ)
    (hn : n ∉ ids) (h : ids.Nodup) :
    (ids.map (fun id => if id = o then n else id)).Nodup := by
  induction ids with
  | nil => simp
  | cons a t ih =>
    rw [List.map_cons, List.nodup_cons]
    have hn' : n ∉ t := fun ht => hn (List.mem_cons_of_mem _ ht)
    have hna : n ≠ a := fun he => hn (by simp [he])
    obtain ⟨hat, ht⟩ := List.nodup_cons.mp h
    refine ⟨?_, ih hn' ht⟩
    intro hmem
    rw [List.mem_map] at hmem
    obtain ⟨b, hb, hfb⟩ := hmem
    by_cases hao : a = o
    · by_cases hbo : b = o
      · exact hat (by rw [hao, ← hbo]; exact hb)
      · rw [if_neg hbo, if_pos hao] at hfb
        exact hn' (hfb ▸ hb)
    · by_cases hbo : b = o
      · rw [if_pos hbo, if_neg hao] at hfb
        exact hna hfb
      · rw [if_neg hbo, if_neg hao] at hfb
        exact hat (hfb ▸ hb)

lemma applyCompareOp_inv (ids : List ℕ) (op : CompareOp)
    (h1 : ids.length ≤ COMPARE_LIMIT) (h2 : ids.Nodup) :
    (applyCompareOp ids op).length ≤ COMPARE_LIMIT ∧
    (applyCompareOp ids op).Nodup := by
  cases op with
  | toggle p =>
    simp only [applyCompareOp, handleToggleCompare]
    split_ifs with hmem hlen
    · exact ⟨le_trans (List.length_filter_le _ _) h1, h2.filter _⟩
    · constructor
      · simp only [List.length_append, List.length_singleton]
        omega
      · rw [List.nodup_append]
        refine ⟨h2, List.nodup_singleton _, ?_⟩
        intro a ha hb
        rw [List.mem_singleton] at hb
        exact hmem (hb ▸ ha)
    · exact ⟨h1, h2⟩
  | replace o n =>
    simp only [applyCompareOp, handleReplacePlayer]
    split_ifs with hmem
    · exact ⟨le_trans (List.length_filter_le _ _) h1, h2.filter _⟩
    · exact ⟨by rw [List.length_map]; exact h1,
        nodup_map_replaceId ids o n hmem h2⟩
  | clear =>
    simp [applyCompareOp, handleClearCompare]

lemma runCompare_from_inv (ops : List CompareOp) :
    ∀ ids : List ℕ, ids.length ≤ COMPARE_LIMIT → ids.Nodup →
      (ops.foldl applyCompareOp ids).length ≤ COMPARE_LIMIT ∧
      (ops.foldl applyCompareOp ids).Nodup := by
  induction ops with
  | nil => intro ids h1 h2; exact ⟨h1, h2⟩
  | cons op rest ih =>
    intro ids h1 h2
    rw [List.foldl_cons]
    obtain ⟨g1, g2⟩ := applyCompareOp_inv ids op h1 h2
    exact ih _ g1 g2

/-! ## Lemmas for the portfolio state machine -/

lemma updateShares_map_id (pf : List Holding) (pid : ℕ) (s : JsNum) :
    (updateShares pf pid s).map Holding.id = pf.map Holding.id := by
  unfold updateShares
  rw [List.map_map]
  apply List.map_congr_left
  intro p _
  by_cases hp : p.id = pid <;> simp [hp]

lemma applyPortfolioOp_ids_nodup (pf : List Holding) (op : PortfolioOp)
    (h : (pf.map Holding.id).Nodup) :
    ((applyPortfolioOp pf op).map Holding.id).Nodup := by
  cases op with
  | add p =>
    simp only [applyPortfolioOp, addToPortfolio]
    split_ifs with hmem
    · exact h
    · rw [List.map_append]
      rw [List.nodup_append]
      refine ⟨h, by simp, ?_⟩
      intro a ha hb
      simp only [List.map_cons, List.map_nil, List.mem_singleton] at hb
      rw [List.mem_map] at ha
      obtain ⟨q, hq, hqa⟩ := ha
      exact hmem ⟨q, hq, by rw [hqa, hb]⟩
  | update p s =>
    simpa only [applyPortfolioOp, updateShares_map_id] using h
  | remove p =>
    simp only [applyPortfolioOp, removeFromPortfolio]
    exact ((List.filter_sublist _).map Holding.id).nodup h

/-- Claim C9 counterexample: after toggling 1, 2, 3 into the compare
list, replacing 1 with the already-present 3 removes 1, and id 2 moves
from position 1 to position 0 — replacing does not always preserve the
positions of all other ids. -/
theorem compare_replace_position_counterexample :
    runCompare [CompareOp.toggle 1, CompareOp.toggle 2, CompareOp.toggle 3]
        = [1, 2, 3] ∧
    handleReplacePlayer [1, 2, 3] 1 3 = [2, 3] ∧
    ([1, 2, 3] : List ℕ)[1]? = some 2 ∧
    (handleReplacePlayer [1, 2, 3] 1 3)[1]? ≠ some 2 := by
  decide

/-- Claim C9 (amended): starting from the empty compare list, every
sequence of toggle, replace and clear operations keeps the list at most
COMPARE_LIMIT long and free of duplicate ids; toggling a present id
removes it; replacing with an id not already in the list preserves the
length and the entry at every position not holding the outgoing id,
while replacing with an id already in the list instead removes the
outgoing id (so positions after it shift). -/
theorem compare_list_invariants :
    (∀ ops : List CompareOp,
      (runCompare ops).length ≤ COMPARE_LIMIT ∧ (runCompare ops).Nodup) ∧
    (∀ (ids : List ℕ) (p : ℕ), p ∈ ids →
      p ∉ handleToggleCompare ids p) ∧
    (∀ (ids : List ℕ) (o n : ℕ), n ∉ ids →
      (handleReplacePlayer ids o n).length = ids.length ∧
      ∀ i : ℕ, ids[i]? ≠ some o →
        (handleReplacePlayer ids o n)[i]? = ids[i]?) ∧
    (∀ (ids : List ℕ) (o n : ℕ), n ∈ ids →
      handleReplacePlayer ids o n
        = ids.filter (fun id => decide (id ≠ o))) := by
  refine ⟨?_, ?_, ?_, ?_⟩
  · intro ops
    exact runCompare_from_inv ops [] (by simp [COMPARE_LIMIT]) (by simp)
  · intro ids p hmem hmem'
    unfold handleToggleCompare at hmem'
    rw [if_pos hmem] at hmem'
    rw [List.mem_filter] at hmem'
    have := of_decide_eq_true hmem'.2
    exact this rfl
  · intro ids o n hn
    unfold handleReplacePlayer
    rw [if_neg hn]
    refine ⟨List.length_map _ _, ?_⟩
    intro i hi
    rw [List.getElem?_map]
    cases hig : ids[i]? with
    | none => rfl
    | some a =>
      have ha : a ≠ o := fun he => hi (by rw [hig, he])
      simp [ha]
  · intro ids o n hn
    unfold handleReplacePlayer
    rw [if_pos hn]

/-- Witness for C9 at concrete lists: toggling the present id 2 removes
it; replacing 1 by the fresh id 7 keeps position 1 intact; replacing 1
by the already-present 2 reduces to filtering out 1. -/
theorem compare_list_invariants_witness :
    ((2:ℕ) ∈ [1, 2] ∧ (2:ℕ) ∉ handleToggleCompare [1, 2] 2) ∧
    ((7:ℕ) ∉ [1, 2] ∧
      (handleReplacePlayer [1, 2] 1 7)[1]? = ([1, 2] : List ℕ)[1]?) ∧
    ((2:ℕ) ∈ [1, 2] ∧
      handleReplacePlayer [1, 2] 1 2
        = ([1, 2] : List ℕ).filter (fun id => decide (id ≠ 1))) :=
  ⟨⟨by decide, compare_list_invariants.2.1 [1, 2] 2 (by decide)⟩,
   ⟨by decide,
    (compare_list_invariants.2.2.1 [1, 2] 1 7 (by decide)).2 1 (by decide)⟩,
   ⟨by decide, compare_list_invariants.2.2.2 [1, 2] 1 2 (by decide)⟩⟩

/-- Claim C10 counterexample: the portfolio [(5, 1 share)] is reachable
by adding player 5; calling updateShares for player 5 with NaN — what
parseInt produces at the only call site when the share input is cleared
— leaves the updated holding with NaN shares, which is not at least 1. -/
theorem portfolio_update_nan_counterexample :
    runPortfolio [PortfolioOp.add 5, PortfolioOp.update 5 JsNum.nan]
        = [⟨5, JsNum.nan⟩] ∧
    (⟨5, JsNum.nan⟩ : Holding) ∈
      updateShares [(⟨5, JsNum.int 1⟩ : Holding)] 5 JsNum.nan ∧
    (⟨5, JsNum.nan⟩ : Holding).id = 5 ∧
    ¬ atLeastOneShare (⟨5, JsNum.nan⟩ : Holding).shares := by
  refine ⟨by decide, by decide, rfl, ?_⟩
  rintro ⟨n, hn, -⟩
  exact JsNum.noConfusion hn

/-- Claim C10 (amended): over every sequence of add, update and remove
operations from the empty portfolio, each player id is held at most
once; adding an already-held player is a no-op; after every updateShares
call whose shares argument is an actual number the updated holding's
shares value is an actual number at least 1; when the shares argument is
NaN (parseInt of a cleared input at the only call site), the updated
holding's shares become NaN instead. -/
theorem portfolio_invariants :
    (∀ ops : List PortfolioOp,
      ((runPortfolio ops).map Holding.id).Nodup) ∧
    (∀ (pf : List Holding) (pid : ℕ), (∃ p ∈ pf, p.id = pid) →
      addToPortfolio pf pid = pf) ∧
    (∀ (pf : List Holding) (pid : ℕ) (n : ℤ) (p : Holding),
      p ∈ updateShares pf pid (JsNum.int n) → p.id = pid →
        atLeastOneShare p.shares) ∧
    (∀ (pf : List Holding) (pid : ℕ) (p : Holding),
      p ∈ updateShares pf pid JsNum.nan → p.id = pid →
        p.shares = JsNum.nan) := by
  refine ⟨?_, ?_, ?_, ?_⟩
  · intro ops
    have main : ∀ (l : List PortfolioOp) (pf : List Holding),
        (pf.map Holding.id).Nodup →
        ((l.foldl applyPortfolioOp pf).map Holding.id).Nodup := by
      intro l
      induction l with
      | nil => intro pf h; exact h
      | cons op rest ih =>
        intro pf h
        rw [List.foldl_cons]
        exact ih _ (applyPortfolioOp_ids_nodup pf op h)
    exact main ops [] (by simp)
  · intro pf pid h
    unfold addToPortfolio
    rw [if_pos h]
  · intro pf pid n p hmem hpid
    unfold updateShares at hmem
    rw [List.mem_map] at hmem
    obtain ⟨q, hq, hfq⟩ := hmem
    by_cases hqid : q.id = pid
    · rw [if_pos hqid] at hfq
      refine ⟨max 1 n, ?_, le_max_left _ _⟩
      rw [← hfq]
      rfl
    · rw [if_neg hqid] at hfq
      exact absurd (hfq ▸ hpid) hqid
  · intro pf pid p hmem hpid
    unfold updateShares at hmem
    rw [List.mem_map] at hmem
    obtain ⟨q, hq, hfq⟩ := hmem
    by_cases hqid : q.id = pid
    · rw [if_pos hqid] at hfq
      rw [← hfq]
      rfl
    · rw [if_neg hqid] at hfq
      exact absurd (hfq ▸ hpid) hqid

/-- Witness for C10 at a one-holding portfolio: re-adding the held
player 5 changes nothing; updating its shares to the number -4 clamps
them back to 1; updating them with NaN leaves NaN shares. -/
theorem portfolio_invariants_witness :
    ((∃ p ∈ [(⟨5, JsNum.int 2⟩ : Holding)], p.id = 5) ∧
      addToPortfolio [(⟨5, JsNum.int 2⟩ : Holding)] 5
        = [⟨5, JsNum.int 2⟩]) ∧
    ((⟨5, JsNum.int 1⟩ : Holding) ∈
        updateShares [(⟨5, JsNum.int 2⟩ : Holding)] 5 (JsNum.int (-4)) ∧
      atLeastOneShare (⟨5, JsNum.int 1⟩ : Holding).shares) ∧
    ((⟨5, JsNum.nan⟩ : Holding) ∈
        updateShares [(⟨5, JsNum.int 2⟩ : Holding)] 5 JsNum.nan ∧
      (⟨5, JsNum.nan⟩ : Holding).shares = JsNum.nan) :=
  ⟨⟨⟨⟨5, JsNum.int 2⟩, by decide, rfl⟩,
    portfolio_invariants.2.1 [⟨5, JsNum.int 2⟩] 5
      ⟨⟨5, JsNum.int 2⟩, by decide, rfl⟩⟩,
   ⟨by decide,
    portfolio_invariants.2.2.1 [⟨5, JsNum.int 2⟩] 5 (-4) ⟨5, JsNum.int 1⟩
      (by decide) rfl⟩,
   ⟨by decide,
    portfolio_invariants.2.2.2 [⟨5, JsNum.int 2⟩] 5 ⟨5, JsNum.nan⟩
      (by decide) rfl⟩⟩

end PlayerMarket
